import Mathlib

/-!
Verification of the RED Brick API wrapper
(src/brickv/plugin_system/plugins/red/api.py).

The Python source is shallowly embedded as pure Lean functions.  Bytes are
modelled as natural numbers, byte strings as lists, the RPC transport as
explicit response data passed to each function, and the mutable objects
(REDBrick callback registry, REDSession, REDObject handles, REDFileBase
async machinery) as explicit state values threaded through the operations.
Server-directed calls that a method issues are returned as explicit call
lists so that theorems can speak about how many calls happen and in which
order.  Raised Python exceptions become Except or Option results; where the
source swallows an exception (the unchecked best-effort calls), the model
result does not depend on whether the transport raised.
-/

namespace RedApi

/-- REDError.E_SUCCESS (api.py line 33). -/
def E_SUCCESS : Nat := 0

/-- REDError.E_NO_MORE_DATA (api.py line 43). -/
def E_NO_MORE_DATA : Nat := 10

/-! ## Chunking (api.py lines 528-533)

The function splits out the slice data[start : start + max_chunk_length],
records its true length, and zero-pads the slice to exactly
max_chunk_length bytes.
-/

/-- Model of the module-level function get_zero_padded_chunk: returns the
zero-padded chunk together with its unpadded length. -/
def get_zero_padded_chunk (data : List Nat) (max_chunk_length : Nat)
    (start : Nat := 0) : List Nat × Nat :=
  let chunk := (data.drop start).take max_chunk_length
  let chunk_length := chunk.length
  (chunk ++ List.replicate (max_chunk_length - chunk_length) 0, chunk_length)

/-- Splitting a byte string into consecutive zero-padded chunks of limit L,
in offset order, exactly as every chunked writer in the source consumes the
function (offsets 0, L, 2L, ...).  The L = 0 case is unreachable for the
protocol limits (all are 58-63) and is mapped to the empty split. -/
def split_zero_padded_chunks : Nat → List Nat → List (List Nat × Nat)
  | _, [] => []
  | 0, _ :: _ => []
  | L + 1, x :: xs =>
    get_zero_padded_chunk (x :: xs) (L + 1) 0 ::
      split_zero_padded_chunks (L + 1) ((x :: xs).drop (L + 1))
termination_by _ data => data.length
decreasing_by
  simp only [List.length_drop]
  simp
  omega

/-- The unpadded part of a produced chunk is the original slice. -/
lemma get_zero_padded_chunk_take (data : List Nat) (L start : Nat) :
    (get_zero_padded_chunk data L start).1.take
      (get_zero_padded_chunk data L start).2 = (data.drop start).take L := by
  simp [get_zero_padded_chunk, List.take_left]

/-- The reported unpadded length is min L (length - start). -/
lemma get_zero_padded_chunk_snd (data : List Nat) (L start : Nat) :
    (get_zero_padded_chunk data L start).2 = min L (data.length - start) := by
  simp [get_zero_padded_chunk]

/-- Every returned chunk is padded to exactly L bytes. -/
lemma get_zero_padded_chunk_length (data : List Nat) (L start : Nat) :
    (get_zero_padded_chunk data L start).1.length = L := by
  simp only [get_zero_padded_chunk, List.length_append, List.length_replicate]
  have h : ((data.drop start).take L).length ≤ L := by
    simp [List.length_take]
  omega

/-- The padding appended after the unpadded part is all zero bytes. -/
lemma get_zero_padded_chunk_drop (data : List Nat) (L start : Nat) :
    (get_zero_padded_chunk data L start).1.drop
      (get_zero_padded_chunk data L start).2 =
      List.replicate (L - (get_zero_padded_chunk data L start).2) 0 := by
  simp [get_zero_padded_chunk, List.drop_left]

/-- Concatenating the unpadded parts of the split, in offset order,
reconstructs the original byte string. -/
lemma split_zero_padded_chunks_flatten :
    ∀ (L : Nat) (S : List Nat), 0 < L →
      ((split_zero_padded_chunks L S).map fun c => c.1.take c.2).flatten = S := by
  intro L S
  induction L, S using split_zero_padded_chunks.induct with
  | case1 L =>
    intro _
    simp [split_zero_padded_chunks]
  | case2 x xs =>
    intro h
    exact absurd h (lt_irrefl 0)
  | case3 L x xs ih =>
    intro _
    rw [split_zero_padded_chunks]
    simp only [List.map_cons, List.flatten_cons]
    rw [get_zero_padded_chunk_take, ih (Nat.succ_pos L)]
    simp [List.take_append_drop]

/-- C1: for every byte sequence S and chunk limit L > 0, each chunk produced
by get_zero_padded_chunk is exactly L bytes long, zero-padded after its
unpadded part, reports unpadded length min(L, len(S) - offset), and
concatenating the unpadded parts of the consecutive chunks in offset order
reconstructs S exactly. -/
theorem claim1_chunk_roundtrip (S : List Nat) (L off : Nat) (hL : 0 < L) :
    (get_zero_padded_chunk S L off).1.length = L ∧
    (get_zero_padded_chunk S L off).2 = min L (S.length - off) ∧
    (get_zero_padded_chunk S L off).1.take (get_zero_padded_chunk S L off).2 =
      (S.drop off).take L ∧
    (get_zero_padded_chunk S L off).1.drop (get_zero_padded_chunk S L off).2 =
      List.replicate (L - (get_zero_padded_chunk S L off).2) 0 ∧
    ((split_zero_padded_chunks L S).map fun c => c.1.take c.2).flatten = S :=
  ⟨get_zero_padded_chunk_length S L off,
   get_zero_padded_chunk_snd S L off,
   get_zero_padded_chunk_take S L off,
   get_zero_padded_chunk_drop S L off,
   split_zero_padded_chunks_flatten L S hL⟩

/-- Witness for C1 at S = [1,2,3,4,5], L = 2, offset = 4 (S of length L+3,
with a short final chunk). -/
theorem claim1_chunk_roundtrip_witness :
    0 < 2 ∧
    ((get_zero_padded_chunk [1,2,3,4,5] 2 4).1.length = 2 ∧
     (get_zero_padded_chunk [1,2,3,4,5] 2 4).2 = min 2 ([1,2,3,4,5].length - 4) ∧
     (get_zero_padded_chunk [1,2,3,4,5] 2 4).1.take
       (get_zero_padded_chunk [1,2,3,4,5] 2 4).2 = ([1,2,3,4,5].drop 4).take 2 ∧
     (get_zero_padded_chunk [1,2,3,4,5] 2 4).1.drop
       (get_zero_padded_chunk [1,2,3,4,5] 2 4).2 =
       List.replicate (2 - (get_zero_padded_chunk [1,2,3,4,5] 2 4).2) 0 ∧
     ((split_zero_padded_chunks 2 [1,2,3,4,5]).map fun c => c.1.take c.2).flatten =
       [1,2,3,4,5]) :=
  ⟨by decide, claim1_chunk_roundtrip [1,2,3,4,5] 2 4 (by decide)⟩

/-! ## Callback registry (REDBrick, api.py lines 132-188)

REDBrick keeps a dict callback_id -> dict cookie -> WeakMethod, a
monotonically increasing cookie counter, and registers a dispatch
trampoline with the transport (register_callback) the first time a
callback_id gains a listener.  Python dicts preserve insertion order, so
they are modelled as association lists with dict semantics: updating an
existing key keeps its position, inserting a new key appends at the end. -/

/-- A WeakMethod as seen by the registry: whether both weak references are
still alive, and (for modelling dispatch) whether invoking the target
raises an exception. -/
structure WeakMethod where
  alive : Bool
  raises : Bool
deriving DecidableEq, Repr

/-- Association-list lookup (dict access). -/
def al_find {α : Type} : List (Nat × α) → Nat → Option α
  | [], _ => none
  | (k2, v) :: rest, k => if k2 = k then some v else al_find rest k

/-- Association-list store (dict assignment): update in place if the key is
present, append at the end otherwise. -/
def al_set {α : Type} : List (Nat × α) → Nat → α → List (Nat × α)
  | [], k, v => [(k, v)]
  | (k2, v2) :: rest, k, v =>
    if k2 = k then (k2, v) :: rest else (k2, v2) :: al_set rest k v

/-- Association-list delete (dict del, keys are unique). -/
def al_erase {α : Type} : List (Nat × α) → Nat → List (Nat × α)
  | [], _ => []
  | (k2, v) :: rest, k => if k2 = k then rest else (k2, v) :: al_erase rest k

/-- The callback-registry state of a REDBrick.  transport_regs records the
callback ids for which register_callback has been issued at the transport,
in order; the source never unregisters them except in
remove_all_callbacks, which resets the transport table wholesale. -/
structure REDBrick where
  active_callbacks : List (Nat × List (Nat × WeakMethod))
  next_cookie : Nat
  transport_regs : List Nat
deriving DecidableEq, Repr

/-- The registry state of a freshly constructed REDBrick (next_cookie
starts at 1). -/
def REDBrick.init : REDBrick := ⟨[], 1, []⟩

/-- REDBrick.add_callback: allocate a fresh cookie, store the weak method
under it, and register the dispatch trampoline with the transport iff this
is the first listener for the callback id.  Returns (cookie, new state). -/
def REDBrick.add_callback (s : REDBrick) (callback_id : Nat)
    (wm : WeakMethod) : Nat × REDBrick :=
  let cookie := s.next_cookie
  match al_find s.active_callbacks callback_id with
  | some entry =>
    (cookie,
     { s with
        next_cookie := cookie + 1,
        active_callbacks :=
          al_set s.active_callbacks callback_id (entry ++ [(cookie, wm)]) })
  | none =>
    (cookie,
     { s with
        next_cookie := cookie + 1,
        active_callbacks := s.active_callbacks ++ [(callback_id, [(cookie, wm)])],
        transport_regs := s.transport_regs ++ [callback_id] })

/-- REDBrick.remove_callback: delete the cookie from the callback id entry
if both exist, otherwise do nothing.  The transport registration is never
touched. -/
def REDBrick.remove_callback (s : REDBrick) (callback_id cookie : Nat) :
    REDBrick :=
  match al_find s.active_callbacks callback_id with
  | none => s
  | some entry =>
    match al_find entry cookie with
    | none => s
    | some _ =>
      { s with
          active_callbacks :=
            al_set s.active_callbacks callback_id (al_erase entry cookie) }

/-- REDBrick.remove_all_callbacks: resets the transport registration table
(registered_callbacks = empty dict) and clears the listener table; the
cookie counter is not reset. -/
def REDBrick.remove_all_callbacks (s : REDBrick) : REDBrick :=
  { s with active_callbacks := [], transport_regs := [] }

/-- The iteration inside REDBrick.dispatch_callback: walk the cookie
snapshot in order; an alive listener is invoked (any exception it raises is
printed and swallowed, recorded here as the Bool paired with the cookie,
and iteration continues), a dead listener has its cookie collected for
pruning.  Returns (invocations, dead cookies). -/
def dispatch_loop : List (Nat × WeakMethod) → List (Nat × Bool) × List Nat
  | [] => ([], [])
  | (cookie, wm) :: rest =>
    let r := dispatch_loop rest
    if wm.alive then ((cookie, wm.raises) :: r.1, r.2)
    else (r.1, cookie :: r.2)

/-- REDBrick.dispatch_callback: invoke the alive listeners of a callback
id in registration order, then prune the dead cookies from the table.
Returns the invocation list (cookie, raised-an-exception) and the new
state. -/
def REDBrick.dispatch_callback (s : REDBrick) (callback_id : Nat) :
    List (Nat × Bool) × REDBrick :=
  match al_find s.active_callbacks callback_id with
  | none => ([], s)
  | some entry =>
    let r := dispatch_loop entry
    (r.1,
     { s with
        active_callbacks :=
          al_set s.active_callbacks callback_id
            (r.2.foldl (fun e c => al_erase e c) entry) })

lemma al_find_al_set {α : Type} (l : List (Nat × α)) (k : Nat) (v : α) :
    al_find (al_set l k v) k = some v := by
  induction l with
  | nil => simp [al_set, al_find]
  | cons hd tl ih =>
    obtain ⟨k2, v2⟩ := hd
    by_cases h : k2 = k
    · simp [al_set, al_find, h]
    · simp [al_set, al_find, h, ih]

/-- C6: with an alive listener A (cookie ca) and a dead listener B (cookie
cb) registered for an event id, dispatch invokes exactly A (whether or not
A raises an exception, the exception is isolated: the invocation is
recorded and iteration and pruning proceed identically), B is pruned from
the table afterwards, and a subsequent remove_callback for B is a safe
no-op that leaves the state unchanged. -/
theorem claim6_dispatch_prunes_dead (s : REDBrick) (cid ca cb : Nat)
    (wa wb : WeakMethod)
    (hfind : al_find s.active_callbacks cid = some [(ca, wa), (cb, wb)])
    (ha : wa.alive = true) (hb : wb.alive = false) (hne : ca ≠ cb) :
    (s.dispatch_callback cid).1 = [(ca, wa.raises)] ∧
    al_find (s.dispatch_callback cid).2.active_callbacks cid =
      some [(ca, wa)] ∧
    (s.dispatch_callback cid).2.remove_callback cid cb =
      (s.dispatch_callback cid).2 := by
  have hloop : dispatch_loop [(ca, wa), (cb, wb)] = ([(ca, wa.raises)], [cb]) := by
    simp [dispatch_loop, ha, hb]
  have hdisp :
      s.dispatch_callback cid =
        ([(ca, wa.raises)],
         { s with
            active_callbacks := al_set s.active_callbacks cid [(ca, wa)] }) := by
    simp only [REDBrick.dispatch_callback, hfind, hloop]
    simp [al_erase, hne]
  refine ⟨by rw [hdisp], ?_, ?_⟩
  · rw [hdisp]
    exact al_find_al_set ..
  · rw [hdisp]
    simp only [REDBrick.remove_callback, al_find_al_set]
    simp [al_find, hne]

/-- Witness for C6 on a concrete registry state. -/
theorem claim6_dispatch_prunes_dead_witness :
    (al_find (REDBrick.mk [(7, [(1, ⟨true, true⟩), (2, ⟨false, false⟩)])] 3 [7]).active_callbacks 7 =
       some [(1, ⟨true, true⟩), (2, ⟨false, false⟩)] ∧
     (⟨true, true⟩ : WeakMethod).alive = true ∧
     (⟨false, false⟩ : WeakMethod).alive = false ∧ (1 : Nat) ≠ 2) ∧
    (((REDBrick.mk [(7, [(1, ⟨true, true⟩), (2, ⟨false, false⟩)])] 3 [7]).dispatch_callback 7).1 =
       [(1, true)] ∧
     al_find ((REDBrick.mk [(7, [(1, ⟨true, true⟩), (2, ⟨false, false⟩)])] 3 [7]).dispatch_callback 7).2.active_callbacks 7 =
       some [(1, ⟨true, true⟩)] ∧
     ((REDBrick.mk [(7, [(1, ⟨true, true⟩), (2, ⟨false, false⟩)])] 3 [7]).dispatch_callback 7).2.remove_callback 7 2 =
       ((REDBrick.mk [(7, [(1, ⟨true, true⟩), (2, ⟨false, false⟩)])] 3 [7]).dispatch_callback 7).2) :=
  ⟨⟨by decide, by decide, by decide, by decide⟩,
   claim6_dispatch_prunes_dead
     (REDBrick.mk [(7, [(1, ⟨true, true⟩), (2, ⟨false, false⟩)])] 3 [7]) 7 1 2
     ⟨true, true⟩ ⟨false, false⟩ (by decide) (by decide) (by decide) (by decide)⟩

/-! ## Operation sequences over the registry (for the cookie-freshness
invariant of C7) -/

/-- An operation against the callback registry. -/
inductive REDBrickOp
  | add (callback_id : Nat) (wm : WeakMethod)
  | remove (callback_id cookie : Nat)
  | dispatch (callback_id : Nat)
  | remove_all
deriving DecidableEq, Repr

/-- Apply one operation; add_callback returns its cookie. -/
def apply_op (s : REDBrick) : REDBrickOp → REDBrick × Option Nat
  | .add cid wm => let r := s.add_callback cid wm; (r.2, some r.1)
  | .remove cid cookie => (s.remove_callback cid cookie, none)
  | .dispatch cid => ((s.dispatch_callback cid).2, none)
  | .remove_all => (s.remove_all_callbacks, none)

/-- Run a list of operations, collecting the returned cookies in order. -/
def run_ops (s : REDBrick) : List REDBrickOp → List (Option Nat) × REDBrick
  | [] => ([], s)
  | op :: rest =>
    let r := apply_op s op
    let r2 := run_ops r.1 rest
    (r.2 :: r2.1, r2.2)

/-- The cookies actually returned during a run. -/
def returned_cookies (rs : List (Option Nat)) : List Nat := rs.filterMap id

lemma apply_op_next_cookie (s : REDBrick) (op : REDBrickOp) :
    s.next_cookie ≤ (apply_op s op).1.next_cookie ∧
    ∀ c, (apply_op s op).2 = some c →
      c = s.next_cookie ∧ (apply_op s op).1.next_cookie = s.next_cookie + 1 := by
  cases op with
  | add cid wm =>
    constructor
    · cases h : al_find s.active_callbacks cid <;>
        simp [apply_op, REDBrick.add_callback, h]
    · intro c hc
      cases h : al_find s.active_callbacks cid <;>
        simp_all [apply_op, REDBrick.add_callback, h]
  | remove cid cookie =>
    constructor
    · cases h : al_find s.active_callbacks cid with
      | none => simp [apply_op, REDBrick.remove_callback, h]
      | some entry =>
        cases h2 : al_find entry cookie <;>
          simp [apply_op, REDBrick.remove_callback, h, h2]
    · intro c hc
      simp [apply_op] at hc
  | dispatch cid =>
    constructor
    · cases h : al_find s.active_callbacks cid <;>
        simp [apply_op, REDBrick.dispatch_callback, h]
    · intro c hc
      simp [apply_op] at hc
  | remove_all =>
    exact ⟨le_refl _, by intro c hc; simp [apply_op] at hc⟩

lemma run_ops_cookies (ops : List REDBrickOp) :
    ∀ s : REDBrick,
      List.Pairwise (· < ·) (returned_cookies (run_ops s ops).1) ∧
      ∀ c ∈ returned_cookies (run_ops s ops).1, s.next_cookie ≤ c := by
  induction ops with
  | nil => intro s; simp [run_ops, returned_cookies]
  | cons op rest ih =>
    intro s
    have hop := apply_op_next_cookie s op
    have ihs := ih (apply_op s op).1
    cases hc : (apply_op s op).2 with
    | none =>
      have hmain : returned_cookies (run_ops s (op :: rest)).1 =
          returned_cookies (run_ops (apply_op s op).1 rest).1 := by
        simp [run_ops, returned_cookies, hc]
      constructor
      · rw [hmain]
        exact ihs.1
      · intro c hcmem
        rw [hmain] at hcmem
        exact le_trans hop.1 (ihs.2 c hcmem)
    | some c0 =>
      obtain ⟨hc0, hnext⟩ := hop.2 c0 hc
      have hmain : returned_cookies (run_ops s (op :: rest)).1 =
          c0 :: returned_cookies (run_ops (apply_op s op).1 rest).1 := by
        simp [run_ops, returned_cookies, hc]
      constructor
      · rw [hmain, List.pairwise_cons]
        refine ⟨?_, ihs.1⟩
        intro b hb
        have := ihs.2 b hb
        omega
      · intro c hcmem
        rw [hmain] at hcmem
        rcases List.mem_cons.mp hcmem with rfl | hcmem
        · omega
        · have := ihs.2 c hcmem
          omega

/-- C7: in any run of registry operations, the cookies returned by
add_callback are strictly increasing (each fresh cookie is strictly
greater than all previously returned ones, so cookies are unique within
the registry lifetime); an add_callback returns the current counter value;
adding the first listener for an event id registers that id at the
transport exactly once (a later add for an id that already has an entry
leaves the transport registrations unchanged); and remove_callback never
touches the transport registrations, in particular not when it removes the
last listener. -/
theorem claim7_cookies_and_transport (s0 : REDBrick) (ops : List REDBrickOp)
    (s1 s2 s3 : REDBrick) (cid1 cid2 cid3 co3 : Nat) (wm1 wm2 : WeakMethod)
    (entry2 : List (Nat × WeakMethod))
    (h1 : al_find s1.active_callbacks cid1 = none)
    (h2 : al_find s2.active_callbacks cid2 = some entry2) :
    List.Pairwise (· < ·) (returned_cookies (run_ops s0 ops).1) ∧
    (s1.add_callback cid1 wm1).1 = s1.next_cookie ∧
    (s1.add_callback cid1 wm1).2.transport_regs = s1.transport_regs ++ [cid1] ∧
    (s2.add_callback cid2 wm2).2.transport_regs = s2.transport_regs ∧
    (s3.remove_callback cid3 co3).transport_regs = s3.transport_regs := by
  refine ⟨(run_ops_cookies ops s0).1, ?_, ?_, ?_, ?_⟩
  · simp [REDBrick.add_callback, h1]
  · simp [REDBrick.add_callback, h1]
  · simp [REDBrick.add_callback, h2]
  · cases h : al_find s3.active_callbacks cid3 with
    | none => simp [REDBrick.remove_callback, h]
    | some entry =>
      cases h4 : al_find entry co3 <;> simp [REDBrick.remove_callback, h, h4]

/-- Witness for C7: a run performing two adds for the same id, a remove of
the last listener, and an add after remove_all, on concrete states. -/
theorem claim7_cookies_and_transport_witness :
    (al_find (REDBrick.init).active_callbacks 9 = none ∧
     al_find (REDBrick.mk [(9, [(1, ⟨true, false⟩)])] 2 [9]).active_callbacks 9 =
       some [(1, ⟨true, false⟩)]) ∧
    (List.Pairwise (· < ·)
       (returned_cookies
         (run_ops REDBrick.init
           [.add 9 ⟨true, false⟩, .add 9 ⟨true, false⟩, .remove 9 1,
            .remove 9 2, .remove_all, .add 9 ⟨true, false⟩]).1) ∧
     ((REDBrick.init).add_callback 9 ⟨true, false⟩).1 = (REDBrick.init).next_cookie ∧
     ((REDBrick.init).add_callback 9 ⟨true, false⟩).2.transport_regs =
       (REDBrick.init).transport_regs ++ [9] ∧
     ((REDBrick.mk [(9, [(1, ⟨true, false⟩)])] 2 [9]).add_callback 9 ⟨true, false⟩).2.transport_regs =
       (REDBrick.mk [(9, [(1, ⟨true, false⟩)])] 2 [9]).transport_regs ∧
     ((REDBrick.mk [(9, [(1, ⟨true, false⟩)])] 2 [9]).remove_callback 9 1).transport_regs =
       (REDBrick.mk [(9, [(1, ⟨true, false⟩)])] 2 [9]).transport_regs) :=
  ⟨⟨by decide, by decide⟩,
   claim7_cookies_and_transport REDBrick.init
     [.add 9 ⟨true, false⟩, .add 9 ⟨true, false⟩, .remove 9 1,
      .remove 9 2, .remove_all, .add 9 ⟨true, false⟩]
     REDBrick.init (REDBrick.mk [(9, [(1, ⟨true, false⟩)])] 2 [9])
     (REDBrick.mk [(9, [(1, ⟨true, false⟩)])] 2 [9]) 9 9 9 1
     ⟨true, false⟩ ⟨true, false⟩ [(1, ⟨true, false⟩)] (by decide) (by decide)⟩

/-! ## Session (REDSession, api.py lines 191-251)

A session owns an optional session id, a keep-alive timer, and the brick
whose callback registry it clears on expiry.  expire() is modelled as a
pure transition that also reports, in program order, the observable steps
it performs; the final expire_session_unchecked transport call is
best-effort, its exception is printed and swallowed, so the resulting
state does not depend on whether the transport raised. -/

/-- Session state: session id, keep-alive timer flag, owned brick. -/
structure REDSession where
  session_id : Option Nat
  timer_active : Bool
  brick : REDBrick
deriving DecidableEq, Repr

/-- The observable steps of REDSession.expire, in program order. -/
inductive SessionEvent
  | timer_stopped
  | callbacks_cleared
  | session_id_cleared
  | expire_session_call (session_id : Nat)
deriving DecidableEq, Repr

/-- REDSession.expire: a no-op on an unattached session; otherwise stop the
keep-alive timer, clear every registered callback on the brick, null the
session id, and only then issue the best-effort expire-session call whose
transport failure is swallowed (the state never depends on it). -/
def REDSession.expire (s : REDSession) (_transport_raises : Bool) :
    REDSession × List SessionEvent :=
  match s.session_id with
  | none => (s, [])
  | some sid =>
    ({ session_id := none,
       timer_active := false,
       brick := s.brick.remove_all_callbacks },
     [.timer_stopped, .callbacks_cleared, .session_id_cleared,
      .expire_session_call sid])

/-- C8: expire is a no-op on an unattached session; on an attached session
it stops the timer, clears every registered callback (listener table and
transport registrations), nulls the session id before issuing the single
best-effort expire-session call, and the result never depends on whether
the transport call raised; a second expire is a no-op, so after expire the
session id is always none. -/
theorem claim8_expire (t s : REDSession) (sid : Nat) (b b2 b3 : Bool)
    (ht : t.session_id = none) (hs : s.session_id = some sid) :
    t.expire b = (t, []) ∧
    (s.expire b).1.session_id = none ∧
    (s.expire b).1.timer_active = false ∧
    (s.expire b).1.brick.active_callbacks = [] ∧
    (s.expire b).1.brick.transport_regs = [] ∧
    (s.expire b).2 = [.timer_stopped, .callbacks_cleared, .session_id_cleared,
      .expire_session_call sid] ∧
    s.expire b = s.expire b2 ∧
    (s.expire b).1.expire b3 = ((s.expire b).1, []) ∧
    ((s.expire b).1.expire b3).1.session_id = none := by
  refine ⟨?_, ?_, ?_, ?_, ?_, ?_, ?_, ?_, ?_⟩ <;>
    simp [REDSession.expire, ht, hs, REDBrick.remove_all_callbacks]

/-- Witness for C8 on concrete attached and unattached sessions. -/
theorem claim8_expire_witness :
    ((REDSession.mk none true REDBrick.init).session_id = none ∧
     (REDSession.mk (some 4) true
        (REDBrick.mk [(7, [(1, ⟨true, false⟩)])] 2 [7])).session_id = some 4) ∧
    ((REDSession.mk none true REDBrick.init).expire true =
       (REDSession.mk none true REDBrick.init, []) ∧
     ((REDSession.mk (some 4) true
         (REDBrick.mk [(7, [(1, ⟨true, false⟩)])] 2 [7])).expire true).1.session_id = none ∧
     ((REDSession.mk (some 4) true
         (REDBrick.mk [(7, [(1, ⟨true, false⟩)])] 2 [7])).expire true).1.timer_active = false ∧
     ((REDSession.mk (some 4) true
         (REDBrick.mk [(7, [(1, ⟨true, false⟩)])] 2 [7])).expire true).1.brick.active_callbacks = [] ∧
     ((REDSession.mk (some 4) true
         (REDBrick.mk [(7, [(1, ⟨true, false⟩)])] 2 [7])).expire true).1.brick.transport_regs = [] ∧
     ((REDSession.mk (some 4) true
         (REDBrick.mk [(7, [(1, ⟨true, false⟩)])] 2 [7])).expire true).2 =
       [.timer_stopped, .callbacks_cleared, .session_id_cleared,
        .expire_session_call 4] ∧
     (REDSession.mk (some 4) true
        (REDBrick.mk [(7, [(1, ⟨true, false⟩)])] 2 [7])).expire true =
       (REDSession.mk (some 4) true
          (REDBrick.mk [(7, [(1, ⟨true, false⟩)])] 2 [7])).expire false ∧
     (((REDSession.mk (some 4) true
          (REDBrick.mk [(7, [(1, ⟨true, false⟩)])] 2 [7])).expire true).1.expire true =
       (((REDSession.mk (some 4) true
            (REDBrick.mk [(7, [(1, ⟨true, false⟩)])] 2 [7])).expire true).1, [])) ∧
     (((REDSession.mk (some 4) true
          (REDBrick.mk [(7, [(1, ⟨true, false⟩)])] 2 [7])).expire true).1.expire true).1.session_id = none) :=
  ⟨⟨by decide, by decide⟩,
   claim8_expire (REDSession.mk none true REDBrick.init)
     (REDSession.mk (some 4) true (REDBrick.mk [(7, [(1, ⟨true, false⟩)])] 2 [7]))
     4 true false true (by decide) (by decide)⟩

/-! ## Generic object lifecycle (REDObject, api.py lines 276-378)

A handle carries an optional object id, an optional finalizer guard
(REDObjectReleaser) with its armed flag, and whether the per-type
push-event subscriptions (_attach_callbacks) are installed.  detach resets
the subclass fields through the private re-init hook; that reset is
absorbed into the flags here.  update() performs type-specific RPCs and
either succeeds or raises a REDError; it is modelled by the error code it
raises, if any. -/

/-- Handle state of a REDObject. -/
structure REDObject where
  object_id : Option Nat
  releaser_armed : Option Bool
  callbacks_attached : Bool
deriving DecidableEq, Repr

/-- A freshly constructed, unattached handle. -/
def REDObject.initial : REDObject := ⟨none, none, false⟩

/-- A transport call issued by the lifecycle methods. -/
inductive ObjCall
  | release_object_unchecked (object_id session_id : Nat)
deriving DecidableEq, Repr

/-- REDObject.detach: fatal on an unattached handle; otherwise removes the
push-event subscriptions, disarms and drops the finalizer guard, clears
the object id, resets the subclass fields, and returns the old object id. -/
def REDObject.detach (o : REDObject) : Except String (REDObject × Nat) :=
  match o.object_id with
  | none => .error "Cannot detach unattached object"
  | some oid =>
    .ok (⟨none, none, false⟩, oid)

/-- REDObject.release: a no-op on an unattached handle; otherwise detach
and, only if the owning session is still alive, issue the single
best-effort release-object call (its transport failure is swallowed, so
the handle state does not depend on it). -/
def REDObject.release (o : REDObject) (session_id : Option Nat) :
    REDObject × List ObjCall :=
  match o.object_id with
  | none => (o, [])
  | some oid =>
    match (⟨none, none, false⟩ : REDObject), session_id with
    | o2, some sid => (o2, [.release_object_unchecked oid sid])
    | o2, none => (o2, [])

/-- The outcome of REDObject.attach: the error code of the exception it
propagated (if any), the handle state left behind in either case, and the
transport calls issued. -/
structure AttachResult where
  raised : Option Nat
  handle : REDObject
  calls : List ObjCall
deriving DecidableEq, Repr

/-- REDObject.attach: release any previously attached object id, arm a
fresh finalizer guard for the new id, store the id, install the per-type
push-event subscriptions, then optionally run update(); if update raises a
REDError the exception propagates and none of the already-performed
mutations are undone. -/
def REDObject.attach (o : REDObject) (object_id : Nat) (update : Bool)
    (update_error : Option Nat) (session_id : Option Nat) : AttachResult :=
  let r := o.release session_id
  let o2 : REDObject :=
    { r.1 with
        object_id := some object_id,
        releaser_armed := some true,
        callbacks_attached := true }
  if update then
    match update_error with
    | some code => { raised := some code, handle := o2, calls := r.2 }
    | none => { raised := none, handle := o2, calls := r.2 }
  else { raised := none, handle := o2, calls := r.2 }

/-- C4 fails on the code: attaching object id 42 to a fresh handle with a
refresh that raises REDError code 7 propagates the exception, yet the
handle is left attached (object id set, finalizer guard armed, push-event
subscriptions installed) — not fully unattached as the claim demands. -/
theorem claim4_counterexample :
    (REDObject.initial.attach 42 true (some 7) (some 1)).raised = some 7 ∧
    (REDObject.initial.attach 42 true (some 7) (some 1)).handle.object_id = some 42 ∧
    ¬ ((REDObject.initial.attach 42 true (some 7) (some 1)).handle.object_id = none ∧
       (REDObject.initial.attach 42 true (some 7) (some 1)).handle.releaser_armed ≠ some true ∧
       (REDObject.initial.attach 42 true (some 7) (some 1)).handle.callbacks_attached = false) := by
  decide

/-- C4 amended: when attach(object_id) fails (the optional update step
raises a REDError), the handle is left fully attached, not unattached:
its object id is the new id, the finalizer guard is armed, and the
per-type push-event subscriptions remain installed.  Callers such as
_attach_or_release compensate by releasing the object id server-side. -/
theorem claim4_attach_failure_leaves_attached (o : REDObject) (oid code : Nat)
    (sid : Option Nat) :
    (o.attach oid true (some code) sid).raised = some code ∧
    (o.attach oid true (some code) sid).handle.object_id = some oid ∧
    (o.attach oid true (some code) sid).handle.releaser_armed = some true ∧
    (o.attach oid true (some code) sid).handle.callbacks_attached = true := by
  cases h : o.object_id <;> cases sid <;>
    simp [REDObject.attach, REDObject.release, h]

/-- C5: on an attached handle, the first release detaches (object id
cleared, finalizer guard disarmed and dropped, subscriptions removed) and
issues the best-effort release-object call exactly when the session is
still alive; the second release is a no-op on the now-unattached handle,
so the two calls together issue at most one server-side release call. -/
theorem claim5_release_twice (o : REDObject) (oid : Nat)
    (sid sid2 : Option Nat) (h : o.object_id = some oid) :
    (o.release sid).1.object_id = none ∧
    (o.release sid).1.releaser_armed = none ∧
    (o.release sid).1.callbacks_attached = false ∧
    (o.release sid).2 = (match sid with
      | some s => [ObjCall.release_object_unchecked oid s]
      | none => []) ∧
    (o.release sid).1.release sid2 = ((o.release sid).1, []) ∧
    ((o.release sid).2 ++ ((o.release sid).1.release sid2).2).length ≤ 1 := by
  cases sid <;> simp [REDObject.release, h]

/-- Witness for C5 on a concrete attached handle with a live session. -/
theorem claim5_release_twice_witness :
    (REDObject.mk (some 11) (some true) true).object_id = some 11 ∧
    (((REDObject.mk (some 11) (some true) true).release (some 3)).1.object_id = none ∧
     ((REDObject.mk (some 11) (some true) true).release (some 3)).1.releaser_armed = none ∧
     ((REDObject.mk (some 11) (some true) true).release (some 3)).1.callbacks_attached = false ∧
     ((REDObject.mk (some 11) (some true) true).release (some 3)).2 =
       [ObjCall.release_object_unchecked 11 3] ∧
     ((REDObject.mk (some 11) (some true) true).release (some 3)).1.release none =
       (((REDObject.mk (some 11) (some true) true).release (some 3)).1, []) ∧
     (((REDObject.mk (some 11) (some true) true).release (some 3)).2 ++
       ((((REDObject.mk (some 11) (some true) true).release (some 3)).1.release none)).2).length ≤ 1) :=
  ⟨by decide,
   claim5_release_twice (REDObject.mk (some 11) (some true) true) 11
     (some 3) none (by decide)⟩

/-! ## Synchronous chunked file transfer (REDFileBase, api.py lines 568-587
and 726-776)

The read loop asks the server for min(length, MAX_READ_BUFFER_LENGTH)
bytes per call; each server response is a triple (error code, chunk,
length read).  The responses the transport would deliver are passed in as
a list consumed one per call.  The write loop sends zero-padded chunks of
at most MAX_WRITE_BUFFER_LENGTH bytes and advances by the length the
server acknowledged; the server is a function from the call index to
(error code, length written). -/

namespace REDFileBase

/-- MAX_READ_BUFFER_LENGTH (api.py line 568). -/
def MAX_READ_BUFFER_LENGTH : Nat := 62

/-- MAX_READ_ASYNC_BUFFER_LENGTH (api.py line 569). -/
def MAX_READ_ASYNC_BUFFER_LENGTH : Nat := 60

/-- MAX_WRITE_BUFFER_LENGTH (api.py line 570). -/
def MAX_WRITE_BUFFER_LENGTH : Nat := 61

/-- MAX_WRITE_UNCHECKED_BUFFER_LENGTH (api.py line 571). -/
def MAX_WRITE_UNCHECKED_BUFFER_LENGTH : Nat := 61

/-- MAX_WRITE_ASYNC_BUFFER_LENGTH (api.py line 572). -/
def MAX_WRITE_ASYNC_BUFFER_LENGTH : Nat := 61

/-- ASYNC_BURST_CHUNKS (api.py line 587). -/
def ASYNC_BURST_CHUNKS : Nat := 2000

/-- One read_file response: (error code, chunk buffer, length read). -/
abbrev ReadResp := Nat × List Nat × Nat

/-- The while-loop of REDFileBase.read: while length > 0, request a chunk;
a non-success error code raises REDError with that code (Except.error); a
successful response with length read 0 breaks the loop; otherwise the
first length-read bytes of the chunk are appended and length decreases by
length read.  The result is none if the loop would issue more calls than
the response list provides (never happens against a real server). -/
def read_loop : Nat → List Nat → List ReadResp → Option (Except Nat (List Nat))
  | 0, acc, _ => some (.ok acc)
  | _ + 1, _, [] => none
  | length + 1, acc, (ec, chunk, length_read) :: rest =>
    if ec ≠ E_SUCCESS then some (.error ec)
    else if length_read = 0 then some (.ok acc)
    else read_loop (length + 1 - length_read) (acc ++ chunk.take length_read) rest

/-- REDFileBase.read on an attached file object. -/
def read (length : Nat) (responses : List ReadResp) :
    Option (Except Nat (List Nat)) :=
  read_loop length [] responses

/-- C3 fails on the code: a read of 10 bytes answered by the server with
error code E_NO_MORE_DATA raises REDError(E_NO_MORE_DATA) instead of
terminating the loop as end-of-file, because REDFileBase.read treats every
non-success code — the no-more-data code included — as fatal. -/
theorem claim3_counterexample :
    read 10 [(E_NO_MORE_DATA, [], 0)] = some (.error E_NO_MORE_DATA) ∧
    read 10 [(E_NO_MORE_DATA, [], 0)] ≠ some (.ok []) := by
  refine ⟨rfl, fun h => ?_⟩
  simp [read, read_loop, E_NO_MORE_DATA, E_SUCCESS] at h

/-- C3 amended: the read loop requests chunks until the requested length
is satisfied or the server reports a zero-length chunk on a successful
call (end of file), accumulating the unpadded chunk payloads in order; it
fails fatally (raises REDError) on every non-success error code,
including the no-more-data code. -/
theorem claim3_read_loop (acc chunkB chunkC chunkD : List Nat)
    (lenB lenC lenD ecB lrB lrD : Nat)
    (restA restB restC restD : List ReadResp)
    (hB1 : 0 < lenB) (hB2 : ecB ≠ E_SUCCESS)
    (hC : 0 < lenC) (hD1 : 0 < lenD) (hD2 : 0 < lrD) :
    read_loop 0 acc restA = some (.ok acc) ∧
    read_loop lenB acc ((ecB, chunkB, lrB) :: restB) = some (.error ecB) ∧
    read_loop lenC acc ((E_SUCCESS, chunkC, 0) :: restC) = some (.ok acc) ∧
    read_loop lenD acc ((E_SUCCESS, chunkD, lrD) :: restD) =
      read_loop (lenD - lrD) (acc ++ chunkD.take lrD) restD := by
  obtain ⟨lb, rfl⟩ : ∃ m, lenB = m + 1 := ⟨lenB - 1, by omega⟩
  obtain ⟨lc, rfl⟩ : ∃ m, lenC = m + 1 := ⟨lenC - 1, by omega⟩
  obtain ⟨ld, rfl⟩ : ∃ m, lenD = m + 1 := ⟨lenD - 1, by omega⟩
  refine ⟨by simp [read_loop], ?_, ?_, ?_⟩
  · simp [read_loop, hB2]
  · simp [read_loop]
  · simp [read_loop, Nat.pos_iff_ne_zero.mp hD2]

/-- Witness for C3 (amended) on concrete loop states: error code 3 is
fatal, a zero-length success chunk ends the loop, a 2-byte success chunk
is accumulated without its padding. -/
theorem claim3_read_loop_witness :
    (0 < 10 ∧ (3 : Nat) ≠ E_SUCCESS ∧ 0 < 5 ∧ 0 < 7 ∧ 0 < 2) ∧
    (read_loop 0 [9] [] = some (.ok [9]) ∧
     read_loop 10 [9] [(3, [1,2], 2)] = some (.error 3) ∧
     read_loop 5 [9] [(E_SUCCESS, [1,2], 0)] = some (.ok [9]) ∧
     read_loop 7 [9] [(E_SUCCESS, [1,2,0,0], 2)] =
       read_loop (7 - 2) ([9] ++ [1,2,0,0].take 2) []) :=
  ⟨⟨by decide, by decide, by decide, by decide, by decide⟩,
   claim3_read_loop [9] [1,2] [1,2] [1,2,0,0] 10 5 7 3 2 2 [] [] [] []
     (by decide) (by decide) (by decide) (by decide) (by decide)⟩

/-- One call of the synchronous write loop as recorded in its trace: the
zero-padded chunk sent, the unpadded length sent with it, and the length
the server acknowledged. -/
structure WriteCallRecord where
  chunk : List Nat
  length_to_write : Nat
  length_written : Nat
deriving DecidableEq, Repr

/-- The while-loop of REDFileBase.write: while data remains, send the
zero-padded chunk of the first MAX_WRITE_BUFFER_LENGTH remaining bytes; a
non-success response raises REDError (Except.error); a success advances
through the data by the server-reported length written — not by the chunk
length sent — so a short write re-sends the unwritten suffix.  The server
is a function from the call index to (error code, length written); fuel
bounds the number of iterations, none marks fuel exhaustion (the loop
still running). -/
def write_loop (srv : Nat → Nat × Nat) :
    Nat → Nat → List Nat → Option (Except Nat (List WriteCallRecord))
  | 0, _, _ => none
  | _ + 1, _, [] => some (.ok [])
  | fuel + 1, k, x :: xs =>
    let c := get_zero_padded_chunk (x :: xs) MAX_WRITE_BUFFER_LENGTH
    let r := srv k
    if r.1 ≠ E_SUCCESS then some (.error r.1)
    else
      match write_loop srv fuel (k + 1) ((x :: xs).drop r.2) with
      | none => none
      | some (.error e) => some (.error e)
      | some (.ok tr) => some (.ok (⟨c.1, c.2, r.2⟩ :: tr))

/-- REDFileBase.write on an attached file object: data.length calls always
suffice when every acknowledged length is at least 1. -/
def write (data : List Nat) (srv : Nat → Nat × Nat) :
    Option (Except Nat (List WriteCallRecord)) :=
  write_loop srv (data.length + 1) 0 data

/-- The acknowledged written parts of a write trace, concatenated in call
order. -/
def acked_bytes (tr : List WriteCallRecord) : List Nat :=
  (tr.map fun rec => rec.chunk.take rec.length_written).flatten

lemma write_loop_terminates (srv : Nat → Nat × Nat)
    (hsrv : ∀ k, (srv k).1 = E_SUCCESS ∧ 1 ≤ (srv k).2) :
    ∀ (fuel : Nat) (k : Nat) (remaining : List Nat),
      remaining.length < fuel →
      ∃ tr, write_loop srv fuel k remaining = some (.ok tr) ∧
        ((∀ rec ∈ tr, rec.length_written ≤ rec.length_to_write) →
          acked_bytes tr = remaining) := by
  intro fuel
  induction fuel with
  | zero => intro k remaining h; omega
  | succ fuel ih =>
    intro k remaining h
    match remaining with
    | [] =>
      exact ⟨[], rfl, fun _ => rfl⟩
    | x :: xs =>
      obtain ⟨hec, hlw⟩ := hsrv k
      have hlen : ((x :: xs).drop (srv k).2).length < fuel := by
        simp only [List.length_drop] at *
        simp only [List.length_cons] at h ⊢
        omega
      obtain ⟨tr, htr, hcov⟩ := ih (k + 1) ((x :: xs).drop (srv k).2) hlen
      refine ⟨⟨(get_zero_padded_chunk (x :: xs) MAX_WRITE_BUFFER_LENGTH).1,
               (get_zero_padded_chunk (x :: xs) MAX_WRITE_BUFFER_LENGTH).2,
               (srv k).2⟩ :: tr, ?_, ?_⟩
      · rw [write_loop]
        simp [hec, htr]
      · intro hall
        have h0 := hall _ (List.mem_cons_self ..)
        simp only [acked_bytes, List.map_cons, List.flatten_cons]
        have hrest : acked_bytes tr = (x :: xs).drop (srv k).2 :=
          hcov fun rec hrec => hall rec (List.mem_cons_of_mem _ hrec)
        rw [acked_bytes] at hrest
        rw [hrest]
        have hchunk :
            (get_zero_padded_chunk (x :: xs) MAX_WRITE_BUFFER_LENGTH).1.take
              (srv k).2 = (x :: xs).take (srv k).2 := by
          simp only [get_zero_padded_chunk, List.drop_zero] at h0 ⊢
          rw [List.take_append_of_le_length (by simpa using h0), List.take_take]
          congr 1
          simp only [List.length_take] at h0
          omega
        rw [hchunk, List.take_append_drop]

lemma write_loop_zero_ack_stuck :
    ∀ (fuel k : Nat) (x : Nat) (xs : List Nat),
      write_loop (fun _ => (E_SUCCESS, 0)) fuel k (x :: xs) = none := by
  intro fuel
  induction fuel with
  | zero => intro k x xs; rfl
  | succ fuel ih =>
    intro k x xs
    rw [write_loop]
    simp [ih (k + 1) x xs]

/-- C10: the synchronous write loop advances by the server-reported length
written, re-sending the unwritten suffix after a short write.  If every
call succeeds with length written at least 1, the loop terminates within
the fuel budget used by write, and — whenever the server acknowledges no
more than what each call sent — the concatenation of the acknowledged
written parts of the trace, in call order, is exactly the input data.
With length written 0 on successful calls the loop never terminates: no
amount of fuel completes a write of nonempty data. -/
theorem claim10_write_advances_by_ack (data : List Nat)
    (srv : Nat → Nat × Nat) (x : Nat) (xs : List Nat) (fuel k : Nat)
    (hsrv : ∀ j, (srv j).1 = E_SUCCESS ∧ 1 ≤ (srv j).2) :
    (∃ tr, write data srv = some (.ok tr) ∧
      ((∀ rec ∈ tr, rec.length_written ≤ rec.length_to_write) →
        acked_bytes tr = data)) ∧
    write_loop (fun _ => (E_SUCCESS, 0)) fuel k (x :: xs) = none :=
  ⟨write_loop_terminates srv hsrv (data.length + 1) 0 data
     (Nat.lt_succ_self _),
   write_loop_zero_ack_stuck fuel k x xs⟩

/-- Witness for C10: a 3-byte write against a server that acknowledges one
byte per call (short writes), and fuel exhaustion on an all-zero-ack
server. -/
theorem claim10_write_advances_by_ack_witness :
    (∃ tr, write [4, 5, 6] (fun _ => (E_SUCCESS, 1)) = some (.ok tr) ∧
      ((∀ rec ∈ tr, rec.length_written ≤ rec.length_to_write) →
        acked_bytes tr = [4, 5, 6])) ∧
    write_loop (fun _ => (E_SUCCESS, 0)) 5 0 ([7] : List Nat) = none :=
  claim10_write_advances_by_ack [4, 5, 6] (fun _ => (E_SUCCESS, 1)) 7 [] 5 0
    (fun _ => ⟨rfl, le_refl 1⟩)

/-! ## Asynchronous burst write (api.py lines 537-551, 587, 622-674, 744-753)

write_async stores the data in a per-handle WriteAsyncData slot and runs
one burst: up to ASYNC_BURST_CHUNKS - 1 unchecked write calls back to
back, each advancing the optimistic written counter by its unpadded chunk
length, followed by exactly one acknowledged async write call whose
server-pushed completion event later advances written by the acknowledged
length and either finishes (written has reached length), or starts the
next burst.  The transport calls of a burst are returned as a list; the
success path is modelled (an IPConnection-level exception during a burst
would abort it and report the error). -/

/-- The per-handle async write slot (REDFileBase.WriteAsyncData). -/
structure WriteAsyncData where
  data : List Nat
  length : Nat
  written : Nat
deriving DecidableEq, Repr

/-- A transport call issued by the async file machinery. -/
inductive FileCall
  | write_file_unchecked (chunk : List Nat) (length_to_write : Nat)
  | write_file_async (chunk : List Nat) (length_to_write : Nat)
  | read_file_async (length_max : Nat)
deriving DecidableEq, Repr

/-- The unchecked-write loop of _next_write_async_burst followed by its
final acknowledged async write: while fewer than ASYNC_BURST_CHUNKS - 1
unchecked writes have been sent in this burst and more than
MAX_WRITE_ASYNC_BUFFER_LENGTH bytes remain, send an unchecked zero-padded
chunk at offset written and advance written by its unpadded length; then
send the single acknowledged async write for the next chunk (written is
not advanced for it — the completion callback does that). -/
def burst_loop (w : WriteAsyncData) (unchecked_writes : Nat) :
    List FileCall × WriteAsyncData :=
  if h : unchecked_writes < ASYNC_BURST_CHUNKS - 1 ∧
      w.length - w.written > MAX_WRITE_ASYNC_BUFFER_LENGTH then
    (FileCall.write_file_unchecked
        (get_zero_padded_chunk w.data MAX_WRITE_UNCHECKED_BUFFER_LENGTH w.written).1
        (get_zero_padded_chunk w.data MAX_WRITE_UNCHECKED_BUFFER_LENGTH w.written).2 ::
      (burst_loop
        { w with written := w.written +
            (get_zero_padded_chunk w.data MAX_WRITE_UNCHECKED_BUFFER_LENGTH w.written).2 }
        (unchecked_writes + 1)).1,
     (burst_loop
       { w with written := w.written +
           (get_zero_padded_chunk w.data MAX_WRITE_UNCHECKED_BUFFER_LENGTH w.written).2 }
       (unchecked_writes + 1)).2)
  else
    ([FileCall.write_file_async
        (get_zero_padded_chunk w.data MAX_WRITE_ASYNC_BUFFER_LENGTH w.written).1
        (get_zero_padded_chunk w.data MAX_WRITE_ASYNC_BUFFER_LENGTH w.written).2],
     w)
termination_by ASYNC_BURST_CHUNKS - 1 - unchecked_writes
decreasing_by omega

/-- REDFileBase._next_write_async_burst. -/
def next_write_async_burst (w : WriteAsyncData) : List FileCall × WriteAsyncData :=
  burst_loop w 0

/-- REDFileBase.write_async on an attached file object: fatal if another
async write is in progress; otherwise creates the WriteAsyncData slot and
runs the first burst. -/
def write_async (slot : Option WriteAsyncData) (data : List Nat) :
    Except String (WriteAsyncData × List FileCall) :=
  match slot with
  | some _ => .error "Another asynchronous write is already in progress"
  | none =>
    let w : WriteAsyncData := { data := data, length := data.length, written := 0 }
    let r := next_write_async_burst w
    .ok (r.2, r.1)

/-- What REDFileBase._cb_async_file_write does with a completion event for
this file: report the error and clear the slot, report terminal success
(error None) and clear the slot, or emit a status update and start the
next burst. -/
inductive WriteCbResult
  | error_reported (code : Nat)
  | success_reported (written : Nat)
  | continued (w : WriteAsyncData) (calls : List FileCall)
deriving DecidableEq, Repr

/-- Whether the completion event started another burst. -/
def WriteCbResult.is_continued : WriteCbResult → Bool
  | .continued _ _ => true
  | _ => false

/-- REDFileBase._cb_async_file_write (for a matching file id): a
non-success code reports the error; otherwise written advances by the
acknowledged length and a status signal is emitted; if written has reached
length the terminal success (error None) is reported and the slot
cleared, otherwise the next burst is started. -/
def cb_async_file_write (w : WriteAsyncData) (error_code length_written : Nat) :
    WriteCbResult :=
  if error_code ≠ E_SUCCESS then .error_reported error_code
  else
    let w1 := { w with written := w.written + length_written }
    if w1.written ≥ w1.length then .success_reported w1.written
    else
      let r := next_write_async_burst w1
      .continued r.2 r.1

/-- Number of unchecked write calls in a call list. -/
def unchecked_count (calls : List FileCall) : Nat :=
  calls.countP fun c => match c with
    | .write_file_unchecked _ _ => true
    | _ => false

/-- Number of acknowledged async write calls in a call list. -/
def async_count (calls : List FileCall) : Nat :=
  calls.countP fun c => match c with
    | .write_file_async _ _ => true
    | _ => false

lemma burst_loop_structure :
    ∀ (n : Nat) (uw : Nat) (w : WriteAsyncData) (c : Nat),
      w.data.length = w.length →
      w.written + (MAX_WRITE_UNCHECKED_BUFFER_LENGTH * n + c) = w.length →
      1 ≤ c → c ≤ MAX_WRITE_ASYNC_BUFFER_LENGTH →
      uw + n ≤ ASYNC_BURST_CHUNKS - 1 →
      (∃ ch pre, (burst_loop w uw).1 = pre ++ [FileCall.write_file_async ch c] ∧
        unchecked_count pre = pre.length ∧ pre.length = n) ∧
      (burst_loop w uw).2.written =
        w.written + MAX_WRITE_UNCHECKED_BUFFER_LENGTH * n ∧
      (burst_loop w uw).2.data = w.data ∧
      (burst_loop w uw).2.length = w.length := by
  intro n
  induction n with
  | zero =>
    intro uw w c hdata hsum hc1 hc2 huw
    have hcond : ¬ (uw < ASYNC_BURST_CHUNKS - 1 ∧
        w.length - w.written > MAX_WRITE_ASYNC_BUFFER_LENGTH) := by
      simp only [MAX_WRITE_UNCHECKED_BUFFER_LENGTH] at hsum
      simp only [MAX_WRITE_ASYNC_BUFFER_LENGTH] at hc2 ⊢
      omega
    have hsnd : (get_zero_padded_chunk w.data MAX_WRITE_ASYNC_BUFFER_LENGTH
        w.written).2 = c := by
      rw [get_zero_padded_chunk_snd, hdata]
      simp only [MAX_WRITE_UNCHECKED_BUFFER_LENGTH] at hsum
      simp only [MAX_WRITE_ASYNC_BUFFER_LENGTH] at hc2 ⊢
      omega
    rw [burst_loop, dif_neg hcond]
    refine ⟨⟨(get_zero_padded_chunk w.data MAX_WRITE_ASYNC_BUFFER_LENGTH
        w.written).1, [], ?_, rfl, rfl⟩, by simp, rfl, rfl⟩
    simp [hsnd]
  | succ n ih =>
    intro uw w c hdata hsum hc1 hc2 huw
    have hcond : uw < ASYNC_BURST_CHUNKS - 1 ∧
        w.length - w.written > MAX_WRITE_ASYNC_BUFFER_LENGTH := by
      simp only [MAX_WRITE_UNCHECKED_BUFFER_LENGTH] at hsum
      simp only [MAX_WRITE_ASYNC_BUFFER_LENGTH, ASYNC_BURST_CHUNKS] at *
      omega
    have hsnd : (get_zero_padded_chunk w.data MAX_WRITE_UNCHECKED_BUFFER_LENGTH
        w.written).2 = MAX_WRITE_UNCHECKED_BUFFER_LENGTH := by
      rw [get_zero_padded_chunk_snd, hdata]
      simp only [MAX_WRITE_UNCHECKED_BUFFER_LENGTH] at hsum ⊢
      omega
    have ihw := ih (uw + 1)
      { w with written := w.written + MAX_WRITE_UNCHECKED_BUFFER_LENGTH } c
      (by simpa using hdata)
      (by simp only [MAX_WRITE_UNCHECKED_BUFFER_LENGTH] at hsum ⊢; omega)
      hc1 hc2 (by omega)
    obtain ⟨⟨ch, pre, hcalls, hcnt, hlen⟩, ihw2, ihw3, ihw4⟩ := ihw
    rw [burst_loop, dif_pos hcond]
    simp only [hsnd]
    refine ⟨⟨ch, FileCall.write_file_unchecked
        (get_zero_padded_chunk w.data MAX_WRITE_UNCHECKED_BUFFER_LENGTH w.written).1
        MAX_WRITE_UNCHECKED_BUFFER_LENGTH :: pre, ?_, ?_, ?_⟩, ?_, ?_, ?_⟩
    · simp only [List.cons_append]
      rw [hcalls]
    · simp only [unchecked_count, List.countP_cons, List.length_cons]
      simp only [unchecked_count] at hcnt
      simp [hcnt]
    · simp [hlen]
    · rw [ihw2]
      simp only [MAX_WRITE_UNCHECKED_BUFFER_LENGTH]
      omega
    · exact ihw3
    · exact ihw4

lemma async_count_of_all_unchecked (pre : List FileCall)
    (h : unchecked_count pre = pre.length) : async_count pre = 0 := by
  rw [unchecked_count, List.countP_eq_length] at h
  rw [async_count, List.countP_eq_zero]
  intro a ha
  have := h a ha
  cases a <;> simp_all

lemma write_async_full_burst (data : List Nat)
    (h : data.length =
      MAX_WRITE_UNCHECKED_BUFFER_LENGTH * (ASYNC_BURST_CHUNKS - 1) + 1) :
    write_async none data =
      .ok ((next_write_async_burst ⟨data, data.length, 0⟩).2,
           (next_write_async_burst ⟨data, data.length, 0⟩).1) ∧
    (∃ ch pre, (next_write_async_burst ⟨data, data.length, 0⟩).1 =
        pre ++ [FileCall.write_file_async ch 1] ∧
      unchecked_count pre = pre.length ∧
      pre.length = ASYNC_BURST_CHUNKS - 1) ∧
    unchecked_count (next_write_async_burst ⟨data, data.length, 0⟩).1 =
      ASYNC_BURST_CHUNKS - 1 ∧
    async_count (next_write_async_burst ⟨data, data.length, 0⟩).1 = 1 ∧
    cb_async_file_write (next_write_async_burst ⟨data, data.length, 0⟩).2
      E_SUCCESS 1 = .success_reported data.length ∧
    (cb_async_file_write (next_write_async_burst ⟨data, data.length, 0⟩).2
      E_SUCCESS 1).is_continued = false := by
  have hs := burst_loop_structure (ASYNC_BURST_CHUNKS - 1) 0
    ⟨data, data.length, 0⟩ 1 rfl (by simpa using h.symm) (le_refl 1)
    (by simp [MAX_WRITE_ASYNC_BUFFER_LENGTH]) (by omega)
  obtain ⟨⟨ch, pre, hcalls, hcnt, hlen⟩, hwr, _, hwl⟩ := hs
  rw [next_write_async_burst] at *
  have hcount : unchecked_count
      (burst_loop ⟨data, data.length, 0⟩ 0).1 = ASYNC_BURST_CHUNKS - 1 := by
    rw [hcalls, unchecked_count, List.countP_append]
    rw [unchecked_count] at hcnt
    simp [hcnt, hlen]
  have hasync : async_count
      (burst_loop ⟨data, data.length, 0⟩ 0).1 = 1 := by
    rw [hcalls, async_count, List.countP_append]
    have h0 := async_count_of_all_unchecked pre hcnt
    rw [async_count] at h0
    simp [h0]
  have hge : (burst_loop ⟨data, data.length, 0⟩ 0).2.written + 1 ≥
      (burst_loop ⟨data, data.length, 0⟩ 0).2.length := by
    rw [hwr, hwl, h]
    simp [MAX_WRITE_UNCHECKED_BUFFER_LENGTH, ASYNC_BURST_CHUNKS]
  have hval : (burst_loop ⟨data, data.length, 0⟩ 0).2.written + 1 =
      data.length := by
    rw [hwr, h]
    simp [MAX_WRITE_UNCHECKED_BUFFER_LENGTH, ASYNC_BURST_CHUNKS]
  have hcb : cb_async_file_write (burst_loop ⟨data, data.length, 0⟩ 0).2
      E_SUCCESS 1 = .success_reported data.length := by
    rw [cb_async_file_write]
    simp only [E_SUCCESS, ne_eq, not_true_eq_false, if_false]
    rw [if_pos hge, hval]
  exact ⟨rfl, ⟨ch, pre, hcalls, hcnt, hlen⟩, hcount, hasync, hcb,
    by rw [hcb]; rfl⟩

/-- C2 fails on the code: for data of exactly
MAX_WRITE_UNCHECKED_BUFFER_LENGTH * (ASYNC_BURST_CHUNKS - 1) + 1 = 121940
bytes, the single burst started by write_async issues 1999 unchecked
write calls followed by one acknowledged async write call that already
covers the final remaining byte, so the completion event of that call
reports terminal success — it does not start a second burst as the claim
states. -/
theorem claim2_counterexample :
    write_async none (List.replicate 121940 0) =
      .ok ((next_write_async_burst ⟨List.replicate 121940 0, 121940, 0⟩).2,
           (next_write_async_burst ⟨List.replicate 121940 0, 121940, 0⟩).1) ∧
    unchecked_count
      (next_write_async_burst ⟨List.replicate 121940 0, 121940, 0⟩).1 = 1999 ∧
    async_count
      (next_write_async_burst ⟨List.replicate 121940 0, 121940, 0⟩).1 = 1 ∧
    cb_async_file_write
      (next_write_async_burst ⟨List.replicate 121940 0, 121940, 0⟩).2
      E_SUCCESS 1 = .success_reported 121940 ∧
    (cb_async_file_write
      (next_write_async_burst ⟨List.replicate 121940 0, 121940, 0⟩).2
      E_SUCCESS 1).is_continued = false := by
  have hl : (List.replicate 121940 (0 : Nat)).length = 121940 := by
    rw [List.length_replicate]
  have habc : ASYNC_BURST_CHUNKS - 1 = 1999 := by
    norm_num [ASYNC_BURST_CHUNKS]
  have hfull := write_async_full_burst (List.replicate 121940 0)
    (by rw [List.length_replicate]
        norm_num [MAX_WRITE_UNCHECKED_BUFFER_LENGTH, ASYNC_BURST_CHUNKS])
  rw [hl] at hfull
  obtain ⟨h1, _, h3, h4, h5, h6⟩ := hfull
  rw [habc] at h3
  exact ⟨h1, h3, h4, h5, h6⟩

/-- C2 amended: an asynchronous write of exactly
MAX_WRITE_UNCHECKED_BUFFER_LENGTH * (ASYNC_BURST_CHUNKS - 1) + 1 bytes
(61 * 1999 + 1 = 121940) performs exactly one burst: 1999 unchecked write
calls followed by exactly one acknowledged async write call of the final
1 remaining byte; the completion event of that acknowledged call then
reports terminal success (written = length) and clears the slot — no
second burst is started, because the acknowledged call of the first burst
already covered the remainder. -/
theorem claim2_single_burst (data : List Nat)
    (h : data.length =
      MAX_WRITE_UNCHECKED_BUFFER_LENGTH * (ASYNC_BURST_CHUNKS - 1) + 1) :
    write_async none data =
      .ok ((next_write_async_burst ⟨data, data.length, 0⟩).2,
           (next_write_async_burst ⟨data, data.length, 0⟩).1) ∧
    (∃ ch pre, (next_write_async_burst ⟨data, data.length, 0⟩).1 =
        pre ++ [FileCall.write_file_async ch 1] ∧
      unchecked_count pre = pre.length ∧
      pre.length = ASYNC_BURST_CHUNKS - 1) ∧
    unchecked_count (next_write_async_burst ⟨data, data.length, 0⟩).1 =
      ASYNC_BURST_CHUNKS - 1 ∧
    async_count (next_write_async_burst ⟨data, data.length, 0⟩).1 = 1 ∧
    cb_async_file_write (next_write_async_burst ⟨data, data.length, 0⟩).2
      E_SUCCESS 1 = .success_reported data.length ∧
    (cb_async_file_write (next_write_async_burst ⟨data, data.length, 0⟩).2
      E_SUCCESS 1).is_continued = false :=
  write_async_full_burst data h

/-- Witness for C2 (amended) at the concrete 121940-byte input. -/
theorem claim2_single_burst_witness :
    (List.replicate 121940 (0 : Nat)).length =
      MAX_WRITE_UNCHECKED_BUFFER_LENGTH * (ASYNC_BURST_CHUNKS - 1) + 1 ∧
    (write_async none (List.replicate 121940 0) =
      .ok ((next_write_async_burst
              ⟨List.replicate 121940 0, (List.replicate 121940 (0 : Nat)).length, 0⟩).2,
           (next_write_async_burst
              ⟨List.replicate 121940 0, (List.replicate 121940 (0 : Nat)).length, 0⟩).1) ∧
     (∃ ch pre, (next_write_async_burst
          ⟨List.replicate 121940 0, (List.replicate 121940 (0 : Nat)).length, 0⟩).1 =
        pre ++ [FileCall.write_file_async ch 1] ∧
       unchecked_count pre = pre.length ∧
       pre.length = ASYNC_BURST_CHUNKS - 1) ∧
     unchecked_count (next_write_async_burst
        ⟨List.replicate 121940 0, (List.replicate 121940 (0 : Nat)).length, 0⟩).1 =
       ASYNC_BURST_CHUNKS - 1 ∧
     async_count (next_write_async_burst
        ⟨List.replicate 121940 0, (List.replicate 121940 (0 : Nat)).length, 0⟩).1 = 1 ∧
     cb_async_file_write (next_write_async_burst
        ⟨List.replicate 121940 0, (List.replicate 121940 (0 : Nat)).length, 0⟩).2
       E_SUCCESS 1 =
       .success_reported (List.replicate 121940 (0 : Nat)).length ∧
     (cb_async_file_write (next_write_async_burst
        ⟨List.replicate 121940 0, (List.replicate 121940 (0 : Nat)).length, 0⟩).2
       E_SUCCESS 1).is_continued = false) :=
  ⟨by rw [List.length_replicate]
      norm_num [MAX_WRITE_UNCHECKED_BUFFER_LENGTH, ASYNC_BURST_CHUNKS],
   claim2_single_burst (List.replicate 121940 0)
     (by rw [List.length_replicate]
         norm_num [MAX_WRITE_UNCHECKED_BUFFER_LENGTH, ASYNC_BURST_CHUNKS])⟩

/-! ## Asynchronous read (api.py lines 553-566, 676-698, 778-787)

read_async stores an empty accumulator and the requested maximum length
in the per-handle ReadAsyncData slot and issues exactly one
read_file_async request; every server push-delivery is handled by
_cb_async_file_read, which never issues further read requests: it appends
the delivered bytes and emits a status signal, and terminates the stream
(reporting the accumulated data with error None and clearing the slot)
on a zero-length delivery or when the accumulator reaches max_length; a
non-success delivery reports the error and clears the slot. -/

/-- The per-handle async read slot (REDFileBase.ReadAsyncData). -/
structure ReadAsyncData where
  data : List Nat
  max_length : Nat
deriving DecidableEq, Repr

/-- REDFileBase.read_async on an attached file object: fatal if another
async read is in progress (the source raises with a copy-pasted message
naming a write); otherwise initializes the slot and issues exactly one
read request for length_max bytes. -/
def read_async (slot : Option ReadAsyncData) (length_max : Nat) :
    Except String (ReadAsyncData × List FileCall) :=
  match slot with
  | some _ => .error "Another asynchronous write is already in progress"
  | none =>
    .ok ({ data := [], max_length := length_max },
         [.read_file_async length_max])

/-- What REDFileBase._cb_async_file_read does with one delivery for this
file: report the accumulated data with an error and clear the slot,
report it with error None (success) and clear the slot, or keep
accumulating (status signal emitted, slot kept). -/
inductive ReadCbResult
  | error_reported (data : List Nat) (code : Nat)
  | success_reported (data : List Nat)
  | continued (r : ReadAsyncData)
deriving DecidableEq, Repr

/-- REDFileBase._cb_async_file_read (for a matching file id).  The second
component is the list of transport calls issued while handling the
delivery — the source issues none.  A non-success code reports the error;
a positive delivery is appended (only the first length_read bytes of the
padded buffer) and, if the accumulator has reached max_length, success is
reported; a zero-length delivery reports success immediately. -/
def cb_async_file_read (r : ReadAsyncData) (error_code : Nat)
    (buf : List Nat) (length_read : Nat) : ReadCbResult × List FileCall :=
  if error_code ≠ E_SUCCESS then (.error_reported r.data error_code, [])
  else if length_read > 0 then
    if (r.data ++ buf.take length_read).length = r.max_length then
      (.success_reported (r.data ++ buf.take length_read), [])
    else
      (.continued ⟨r.data ++ buf.take length_read, r.max_length⟩, [])
  else (.success_reported r.data, [])

/-- Outcome of feeding a sequence of server deliveries to the read
callback: the stream finished (accumulated data, error code if any,
deliveries left unconsumed after the slot was cleared), or it is still
pending more deliveries. -/
inductive ReadRunResult
  | finished (data : List Nat) (error : Option Nat) (leftover : List ReadResp)
  | pending (r : ReadAsyncData)
deriving DecidableEq, Repr

/-- Feed deliveries to _cb_async_file_read until the slot is cleared. -/
def run_read_deliveries : ReadAsyncData → List ReadResp → ReadRunResult
  | r, [] => .pending r
  | r, (ec, buf, lr) :: rest =>
    match cb_async_file_read r ec buf lr with
    | (.error_reported d code, _) => .finished d (some code) rest
    | (.success_reported d, _) => .finished d none rest
    | (.continued r1, _) => run_read_deliveries r1 rest

/-- Total bytes carried by a delivery list. -/
def sum_read (ds : List ReadResp) : Nat := (ds.map fun d => d.2.2).sum

lemma cb_read_accum_done (r : ReadAsyncData) (buf : List Nat) (lr : Nat)
    (h1 : 0 < lr) (h2 : (r.data ++ buf.take lr).length = r.max_length) :
    cb_async_file_read r E_SUCCESS buf lr =
      (.success_reported (r.data ++ buf.take lr), []) := by
  simp [cb_async_file_read, h1, h2]

lemma cb_read_accum_more (r : ReadAsyncData) (buf : List Nat) (lr : Nat)
    (h1 : 0 < lr) (h2 : (r.data ++ buf.take lr).length ≠ r.max_length) :
    cb_async_file_read r E_SUCCESS buf lr =
      (.continued ⟨r.data ++ buf.take lr, r.max_length⟩, []) := by
  have h2m : ¬ (r.data.length + lr ⊓ buf.length = r.max_length) := by
    simpa [List.length_append, List.length_take] using h2
  simp [cb_async_file_read, h1, h2m]

lemma run_read_exact :
    ∀ (ds : List ReadResp) (r : ReadAsyncData),
      ds ≠ [] →
      (∀ d ∈ ds, d.1 = E_SUCCESS ∧ 1 ≤ d.2.2 ∧ d.2.2 ≤ d.2.1.length) →
      r.data.length + sum_read ds = r.max_length →
      ∃ final, run_read_deliveries r ds = .finished final none [] ∧
        final.length = r.max_length := by
  intro ds
  induction ds with
  | nil => intro r h; exact absurd rfl h
  | cons d rest ih =>
    intro r _ hall hsum
    obtain ⟨ec, buf, lr⟩ := d
    obtain ⟨hec, hlr1, hlr2⟩ := hall _ (List.mem_cons_self ..)
    simp only at hec hlr1 hlr2
    subst hec
    have hlen : (r.data ++ buf.take lr).length = r.data.length + lr := by
      simp only [List.length_append, List.length_take]
      omega
    cases rest with
    | nil =>
      have hmax : (r.data ++ buf.take lr).length = r.max_length := by
        rw [hlen]
        simp only [sum_read, List.map_cons, List.map_nil, List.sum_cons,
          List.sum_nil] at hsum
        omega
      refine ⟨r.data ++ buf.take lr, ?_, by rw [hmax]⟩
      rw [run_read_deliveries, cb_read_accum_done r buf lr hlr1 hmax]
    | cons e rest2 =>
      have hsume : 1 ≤ sum_read (e :: rest2) := by
        have he := (hall e (by simp)).2.1
        simp only [sum_read, List.map_cons, List.sum_cons]
        omega
      have hne : (r.data ++ buf.take lr).length ≠ r.max_length := by
        rw [hlen]
        simp only [sum_read, List.map_cons, List.sum_cons] at hsum hsume ⊢
        omega
      rw [run_read_deliveries, cb_read_accum_more r buf lr hlr1 hne]
      have hih := ih ⟨r.data ++ buf.take lr, r.max_length⟩ (by simp)
        (fun d hd => hall d (List.mem_cons_of_mem _ hd))
        (by
          simp only [hlen]
          simp only [sum_read, List.map_cons, List.sum_cons] at hsum ⊢
          omega)
      simpa using hih

/-- C9: read_async issues exactly one initial read request and
initializes the accumulator slot; each delivery handled by the read
callback issues no further read requests; a non-success delivery reports
the error together with the accumulated data and clears the slot; a
zero-length delivery terminates with success; a delivery that makes the
accumulator reach max_length terminates with success; and a nonempty
delivery sequence of successful chunks totalling exactly max_length (the
case of max_length smaller than the data available server-side) runs to a
successful finish with the full max_length bytes accumulated, every
delivery consumed, and no read request ever issued by the callback. -/
theorem claim9_read_async (m : Nat) (r1 : ReadAsyncData) (ec : Nat)
    (buf1 : List Nat) (lr1 : Nat) (r2 : ReadAsyncData) (buf2 : List Nat)
    (r3 : ReadAsyncData) (buf3 : List Nat) (lr3 : Nat)
    (r4 : ReadAsyncData) (ds : List ReadResp)
    (h1 : ec ≠ E_SUCCESS)
    (h3a : 0 < lr3) (h3b : (r3.data ++ buf3.take lr3).length = r3.max_length)
    (h4a : ds ≠ [])
    (h4b : ∀ d ∈ ds, d.1 = E_SUCCESS ∧ 1 ≤ d.2.2 ∧ d.2.2 ≤ d.2.1.length)
    (h4c : r4.data.length + sum_read ds = r4.max_length) :
    read_async none m =
      .ok (⟨[], m⟩, [FileCall.read_file_async m]) ∧
    cb_async_file_read r1 ec buf1 lr1 = (.error_reported r1.data ec, []) ∧
    cb_async_file_read r2 E_SUCCESS buf2 0 = (.success_reported r2.data, []) ∧
    cb_async_file_read r3 E_SUCCESS buf3 lr3 =
      (.success_reported (r3.data ++ buf3.take lr3), []) ∧
    (∃ final, run_read_deliveries r4 ds = .finished final none [] ∧
      final.length = r4.max_length) :=
  ⟨rfl,
   by simp [cb_async_file_read, h1],
   by simp [cb_async_file_read],
   cb_read_accum_done r3 buf3 lr3 h3a h3b,
   run_read_exact ds r4 h4a h4b h4c⟩

/-- Witness for C9 on concrete slots and deliveries: an error delivery
with code 3, a zero-length delivery, a delivery filling the accumulator
to max_length 3, and a two-delivery stream totalling max_length 3. -/
theorem claim9_read_async_witness :
    ((3 : Nat) ≠ E_SUCCESS ∧ 0 < 2 ∧
     ((⟨[1], 3⟩ : ReadAsyncData).data ++ [2,3,4].take 2).length =
       (⟨[1], 3⟩ : ReadAsyncData).max_length ∧
     ([((E_SUCCESS, [1,2], 2) : ReadResp), (E_SUCCESS, [3], 1)] ≠ []) ∧
     (∀ d ∈ [((E_SUCCESS, [1,2], 2) : ReadResp), (E_SUCCESS, [3], 1)],
       d.1 = E_SUCCESS ∧ 1 ≤ d.2.2 ∧ d.2.2 ≤ d.2.1.length) ∧
     (⟨[], 3⟩ : ReadAsyncData).data.length +
       sum_read [((E_SUCCESS, [1,2], 2) : ReadResp), (E_SUCCESS, [3], 1)] =
       (⟨[], 3⟩ : ReadAsyncData).max_length) ∧
    (read_async none 5 =
       .ok (⟨[], 5⟩, [FileCall.read_file_async 5]) ∧
     cb_async_file_read ⟨[], 5⟩ 3 [] 0 = (.error_reported [] 3, []) ∧
     cb_async_file_read ⟨[9], 5⟩ E_SUCCESS [7,7] 0 =
       (.success_reported [9], []) ∧
     cb_async_file_read ⟨[1], 3⟩ E_SUCCESS [2,3,4] 2 =
       (.success_reported ([1] ++ [2,3,4].take 2), []) ∧
     (∃ final, run_read_deliveries ⟨[], 3⟩
         [((E_SUCCESS, [1,2], 2) : ReadResp), (E_SUCCESS, [3], 1)] =
         .finished final none [] ∧
       final.length = (⟨[], 3⟩ : ReadAsyncData).max_length)) :=
  ⟨⟨by decide, by decide, by decide, by decide, by decide, by decide⟩,
   claim9_read_async 5 ⟨[], 5⟩ 3 [] 0 ⟨[9], 5⟩ [7,7] ⟨[1], 3⟩ [2,3,4] 2
     ⟨[], 3⟩ [((E_SUCCESS, [1,2], 2) : ReadResp), (E_SUCCESS, [3], 1)]
     (by decide) (by decide) (by decide) (by decide) (by decide) (by decide)⟩

end REDFileBase

end RedApi
